import Mathlib

/-!
Shallow embedding of the verification script in
src/verification/verify_renderer.py.

The Python function run() performs, inside a sync_playwright context:
  browser = p.chromium.launch(headless, fake-media flags)   -- before the try
  page = browser.new_page()                                 -- before the try
  try:
    page.goto("http://localhost:3002/")
    expect(page).to_have_title("ChromeCam Studio")
    page.wait_for_selector("video", 10000)
    page.wait_for_timeout(3000)
    page.screenshot("verification/running.png")
  except Exception:
    page.screenshot("verification/error.png")
  finally:
    browser.close()

Each browser-automation call is an external effect that either returns
normally or raises.  We embed the script over an environment assigning an
outcome to every call site, and the run function computes: the ordered list
of automation calls made, the list of image files written, and whether the
script returns normally or propagates an exception to its caller.  Python
semantics embedded here: the except clause matches only exceptions whose
class derives from Exception, the finally clause always runs, and an
exception raised inside the finally clause replaces a pending one.  Stdout
progress lines are not modelled; no claim concerns them.
-/

namespace VerifyRenderer

/-- The slice of the Python exception hierarchy the script distinguishes:
a raised object either derives from Exception (matched by the broad handler
on line 35 of the source) or derives only from BaseException, as
KeyboardInterrupt and SystemExit do. -/
inductive ExcClass
  | exceptionClass
  | baseOnly
deriving DecidableEq, Repr

/-- A raised Python exception: its position in the class hierarchy and a
class name used for concrete instances. -/
structure Exc where
  cls : ExcClass
  name : String
deriving DecidableEq, Repr

/-- Outcome of a single automation-library call: return normally, or raise. -/
inductive StepResult
  | ok
  | raises (e : Exc)
deriving DecidableEq, Repr

/-- One outcome per call site of run(), chosen by the external world
(the browser automation library, the target application, the filesystem). -/
structure Env where
  launchRes : StepResult
  newPageRes : StepResult
  gotoRes : StepResult
  titleRes : StepResult
  selectorRes : StepResult
  delayRes : StepResult
  runShotRes : StepResult
  errShotRes : StepResult
  closeRes : StepResult
deriving DecidableEq, Repr

/-- An observable browser-automation call, with the arguments the script
passes at that call site. -/
inductive Event
  | launch
  | newPage
  | goto (url : String)
  | assertTitle (expected : String)
  | waitForSelector (selector : String) (timeoutMs : Nat)
  | waitForTimeout (ms : Nat)
  | screenshot (path : String) (fullPage : Bool)
  | close
deriving DecidableEq, Repr

/-- How run() ends: returning normally, or propagating an exception. -/
inductive RunResult
  | normal
  | raised (e : Exc)
deriving DecidableEq, Repr

/-- Everything observable about one execution of run(): the automation
calls made in order, the image files written in order, and the outcome. -/
structure RunOutcome where
  events : List Event
  written : List String
  result : RunResult
deriving DecidableEq, Repr

/-- page.goto("http://localhost:3002/"), source line 17. -/
def gotoEvent : Event := .goto "http://localhost:3002/"

/-- expect(page).to_have_title("ChromeCam Studio"), source line 21. -/
def titleEvent : Event := .assertTitle "ChromeCam Studio"

/-- page.wait_for_selector("video", 10000), source line 25. -/
def selectorEvent : Event := .waitForSelector "video" 10000

/-- page.wait_for_timeout(3000), source line 29. -/
def delayEvent : Event := .waitForTimeout 3000

/-- page.screenshot(path="verification/running.png"), source line 32.  The
source passes no full-page option, so the library default of capturing only
the viewport applies: the fullPage argument recorded here is false. -/
def runShotEvent : Event := .screenshot "verification/running.png" false

/-- page.screenshot(path="verification/error.png"), source line 37, also
with the library default of a viewport-only capture. -/
def errShotEvent : Event := .screenshot "verification/error.png" false

/-- The try block of run(): the five verification calls in source order,
stopping at the first call that raises.  Returns the calls made, the files
written, and the pending exception if one was raised. -/
def tryBody (env : Env) : List Event × List String × Option Exc :=
  match env.gotoRes with
  | .raises e => ([gotoEvent], [], some e)
  | .ok =>
    match env.titleRes with
    | .raises e => ([gotoEvent, titleEvent], [], some e)
    | .ok =>
      match env.selectorRes with
      | .raises e => ([gotoEvent, titleEvent, selectorEvent], [], some e)
      | .ok =>
        match env.delayRes with
        | .raises e => ([gotoEvent, titleEvent, selectorEvent, delayEvent], [], some e)
        | .ok =>
          match env.runShotRes with
          | .raises e =>
            ([gotoEvent, titleEvent, selectorEvent, delayEvent, runShotEvent], [], some e)
          | .ok =>
            ([gotoEvent, titleEvent, selectorEvent, delayEvent, runShotEvent],
             ["verification/running.png"], none)

/-- The except clause of run(): a pending exception deriving from Exception
is matched, logged, and answered with the error screenshot (which may itself
raise); a pending exception deriving only from BaseException is not matched
and stays pending.  Returns the calls made, the files written, and the
exception still pending afterwards. -/
def handler (env : Env) : Option Exc → List Event × List String × Option Exc
  | none => ([], [], none)
  | some e =>
    match e.cls with
    | .exceptionClass =>
      match env.errShotRes with
      | .ok => ([errShotEvent], ["verification/error.png"], none)
      | .raises e2 => ([errShotEvent], [], some e2)
    | .baseOnly => ([], [], some e)

/-- The finally clause of run(): browser.close() always runs; if it raises,
its exception replaces any pending one, per Python semantics. -/
def afterClose (env : Env) (pending : Option Exc) : Option Exc :=
  match env.closeRes with
  | .ok => pending
  | .raises e => some e

/-- A pending exception at the end of run() propagates to the caller. -/
def toResult : Option Exc → RunResult
  | none => .normal
  | some e => .raised e

/-- The whole of run().  The launch and new_page calls happen before the
try statement, so an exception from either propagates directly: no error
screenshot is attempted and browser.close() is never reached (the
sync_playwright context exit still runs, but that is the library teardown,
not the close call of the script). -/
def run (env : Env) : RunOutcome :=
  match env.launchRes with
  | .raises e => ⟨[.launch], [], .raised e⟩
  | .ok =>
    match env.newPageRes with
    | .raises e => ⟨[.launch, .newPage], [], .raised e⟩
    | .ok =>
      ⟨[Event.launch, Event.newPage] ++ (tryBody env).1
         ++ (handler env (tryBody env).2.2).1 ++ [Event.close],
       (tryBody env).2.1 ++ (handler env (tryBody env).2.2).2.1,
       toResult (afterClose env (handler env (tryBody env).2.2).2.2)⟩

/-- Modelled from the library contract the spec describes in section 6: the
title assertion polls the page title and succeeds exactly when the observed
title equals the expected string, raising an AssertionError-class condition
(which derives from Exception) otherwise. -/
def toHaveTitleOutcome (expected observed : String) : StepResult :=
  if observed = expected then .ok
  else .raises ⟨.exceptionClass, "AssertionError"⟩

/-- Modelled from the library contract the spec describes in section 6: the
selector wait blocks until a matching element appears, succeeding exactly
when the element first appears no later than the timeout bound, and raising
a TimeoutError-class condition (which derives from Exception) otherwise.
appearsAt gives the time in milliseconds at which a matching element first
appears, none meaning it never appears. -/
def waitForSelectorOutcome (timeoutMs : Nat) (appearsAt : Option Nat) : StepResult :=
  match appearsAt with
  | some t => if t ≤ timeoutMs then .ok else .raises ⟨.exceptionClass, "TimeoutError"⟩
  | none => .raises ⟨.exceptionClass, "TimeoutError"⟩

/-- The five verification steps of the try block, as opposed to the
session-management calls and the error-capture screenshot. -/
def isVerificationStep : Event → Bool
  | .goto _ => true
  | .assertTitle _ => true
  | .waitForSelector _ _ => true
  | .waitForTimeout _ => true
  | .screenshot p _ => p = "verification/running.png"
  | _ => false

/-- The verification steps in the fixed order the source issues them. -/
def canonicalSteps : List Event :=
  [gotoEvent, titleEvent, selectorEvent, delayEvent, runShotEvent]

/-- An environment in which every call returns normally. -/
def allOkEnv : Env := ⟨.ok, .ok, .ok, .ok, .ok, .ok, .ok, .ok, .ok⟩

/-- An environment in which the browser launch raises an Exception-class
condition and everything else would succeed. -/
def launchFailEnv : Env :=
  ⟨.raises ⟨.exceptionClass, "Error"⟩, .ok, .ok, .ok, .ok, .ok, .ok, .ok, .ok⟩

/-- An environment in which page creation raises an Exception-class
condition and everything else would succeed. -/
def newPageFailEnv : Env :=
  ⟨.ok, .raises ⟨.exceptionClass, "Error"⟩, .ok, .ok, .ok, .ok, .ok, .ok, .ok⟩

/-- An environment in which a KeyboardInterrupt, deriving only from
BaseException, arrives during the selector wait. -/
def interruptEnv : Env :=
  ⟨.ok, .ok, .ok, .ok, .raises ⟨.baseOnly, "KeyboardInterrupt"⟩, .ok, .ok, .ok, .ok⟩

/-- An environment in which the target serves the title "Other App", the
title assertion outcome following the modelled library contract. -/
def otherTitleEnv : Env :=
  ⟨.ok, .ok, .ok, toHaveTitleOutcome "ChromeCam Studio" "Other App",
   .ok, .ok, .ok, .ok, .ok⟩

/-- An environment in which the video element never appears, the selector
wait outcome following the modelled library contract. -/
def noVideoEnv : Env :=
  ⟨.ok, .ok, .ok, .ok, waitForSelectorOutcome 10000 none, .ok, .ok, .ok, .ok⟩

/-- If the try block raises, it has written no file. -/
theorem tryBody_fail_writes (env : Env) (e : Exc)
    (h : (tryBody env).2.2 = some e) : (tryBody env).2.1 = [] := by
  obtain ⟨l, np, g, t, s, d, r, er, c⟩ := env
  cases g <;> cases t <;> cases s <;> cases d <;> cases r <;> simp_all [tryBody]

/-- If the try block completes, it has written exactly the success file. -/
theorem tryBody_ok_writes (env : Env)
    (h : (tryBody env).2.2 = none) :
    (tryBody env).2.1 = ["verification/running.png"] := by
  obtain ⟨l, np, g, t, s, d, r, er, c⟩ := env
  cases g <;> cases t <;> cases s <;> cases d <;> cases r <;> simp_all [tryBody]

/-- Every call the try block makes is one of the five verification steps. -/
theorem tryBody_events_sub (env : Env) (ev : Event)
    (h : ev ∈ (tryBody env).1) : ev ∈ canonicalSteps := by
  obtain ⟨l, np, g, t, s, d, r, er, c⟩ := env
  cases g <;> cases t <;> cases s <;> cases d <;> cases r <;>
    simp_all [tryBody, canonicalSteps] <;> tauto

/-- The calls the try block makes are an initial segment of the five
verification steps in their fixed source order. -/
theorem tryBody_events_take (env : Env) :
    ∃ n, n ≤ 5 ∧ (tryBody env).1 = canonicalSteps.take n := by
  obtain ⟨l, np, g, t, s, d, r, er, c⟩ := env
  cases g <;> cases t <;> cases s <;> cases d <;> cases r <;>
    first
      | exact ⟨1, by norm_num, rfl⟩
      | exact ⟨2, by norm_num, rfl⟩
      | exact ⟨3, by norm_num, rfl⟩
      | exact ⟨4, by norm_num, rfl⟩
      | exact ⟨5, by norm_num, rfl⟩

/-- The except clause makes at most the error-screenshot call. -/
theorem handler_events (env : Env) (p : Option Exc) :
    (handler env p).1 = [] ∨ (handler env p).1 = [errShotEvent] := by
  match p with
  | none => exact Or.inl rfl
  | some e =>
    obtain ⟨cls, nm⟩ := e
    cases cls <;> cases h : env.errShotRes <;> simp_all [handler]

/-- The except clause writes at most the error file. -/
theorem handler_writes (env : Env) (p : Option Exc) :
    (handler env p).2.1 = [] ∨ (handler env p).2.1 = ["verification/error.png"] := by
  match p with
  | none => exact Or.inl rfl
  | some e =>
    obtain ⟨cls, nm⟩ := e
    cases cls <;> cases h : env.errShotRes <;> simp_all [handler]

/-- C1: in every run in which navigation, the title assertion, the
video-selector wait, the fixed delay, and the success screenshot all
succeed, the script writes verification/running.png and does not write
verification/error.png. -/
theorem C1_success_writes_running_only (env : Env)
    (hl : env.launchRes = .ok) (hp : env.newPageRes = .ok)
    (hg : env.gotoRes = .ok) (ht : env.titleRes = .ok)
    (hs : env.selectorRes = .ok) (hd : env.delayRes = .ok)
    (hr : env.runShotRes = .ok) :
    (run env).written = ["verification/running.png"] ∧
      "verification/error.png" ∉ (run env).written := by
  have hw : (run env).written = ["verification/running.png"] := by
    simp [run, tryBody, handler, hl, hp, hg, ht, hs, hd, hr]
  refine ⟨hw, ?_⟩
  rw [hw]
  decide

theorem C1_success_writes_running_only_witness :
    (run allOkEnv).written = ["verification/running.png"] ∧
      "verification/error.png" ∉ (run allOkEnv).written :=
  C1_success_writes_running_only allOkEnv rfl rfl rfl rfl rfl rfl rfl

/-- C2 as stated is false: an Exception-class failure in step 1, the
session launch, happens before the try statement, so the script writes no
error screenshot and the exception propagates to the caller. -/
theorem C2_counterexample :
    (∃ e, launchFailEnv.launchRes = .raises e ∧ e.cls = .exceptionClass) ∧
    "verification/error.png" ∉ (run launchFailEnv).written ∧
    (run launchFailEnv).result ≠ .normal := by
  refine ⟨⟨⟨.exceptionClass, "Error"⟩, rfl, rfl⟩, ?_, ?_⟩ <;> decide

/-- C2 amended: for every Exception-class failure raised in steps 3 to 7
(navigation, title assertion, selector wait, fixed delay, success
screenshot), provided the error screenshot and the session close themselves
succeed, the script captures verification/error.png, does not re-raise, and
returns normally to its caller; failures in session launch or page creation
are outside the try statement and are not handled. -/
theorem C2_caught_failure_writes_error (env : Env) (e : Exc)
    (hl : env.launchRes = .ok) (hp : env.newPageRes = .ok)
    (hf : (tryBody env).2.2 = some e) (hc : e.cls = .exceptionClass)
    (he : env.errShotRes = .ok) (hcl : env.closeRes = .ok) :
    (run env).written = ["verification/error.png"] ∧
      (run env).result = .normal := by
  have hw := tryBody_fail_writes env e hf
  obtain ⟨cls, nm⟩ := e
  cases hc
  simp [run, hl, hp, hf, hw, handler, he, afterClose, hcl, toResult]

theorem C2_caught_failure_writes_error_witness :
    (run otherTitleEnv).written = ["verification/error.png"] ∧
      (run otherTitleEnv).result = .normal :=
  C2_caught_failure_writes_error otherTitleEnv
    ⟨.exceptionClass, "AssertionError"⟩ rfl rfl (by decide) rfl rfl rfl

/-- C3 as stated is false: when page creation raises, the exception occurs
before the try statement, so the finally clause never runs and the close
call is not reached even though the session launch succeeded. -/
theorem C3_counterexample :
    newPageFailEnv.launchRes = .ok ∧
    Event.launch ∈ (run newPageFailEnv).events ∧
    Event.close ∉ (run newPageFailEnv).events := by
  refine ⟨rfl, ?_, ?_⟩ <;> decide

/-- C3 amended: in every run in which the launch and page creation both
succeed, exactly one launch call and exactly one close call are made, and
the close call is the last automation call on every exit path; when page
creation itself raises, the close call is skipped. -/
theorem C3_close_after_page_created (env : Env)
    (hl : env.launchRes = .ok) (hp : env.newPageRes = .ok) :
    (run env).events.count Event.launch = 1 ∧
    (run env).events.count Event.close = 1 ∧
    ∃ pre, (run env).events = pre ++ [Event.close] := by
  have hevents : (run env).events =
      [Event.launch, Event.newPage] ++ (tryBody env).1
        ++ (handler env (tryBody env).2.2).1 ++ [Event.close] := by
    simp [run, hl, hp]
  have htl : Event.launch ∉ (tryBody env).1 := fun h => by
    have := tryBody_events_sub env Event.launch h
    simp [canonicalSteps, gotoEvent, titleEvent, selectorEvent, delayEvent,
      runShotEvent] at this
  have htc : Event.close ∉ (tryBody env).1 := fun h => by
    have := tryBody_events_sub env Event.close h
    simp [canonicalSteps, gotoEvent, titleEvent, selectorEvent, delayEvent,
      runShotEvent] at this
  have hhl : Event.launch ∉ (handler env (tryBody env).2.2).1 := by
    rcases handler_events env (tryBody env).2.2 with h | h <;> rw [h] <;> decide
  have hhc : Event.close ∉ (handler env (tryBody env).2.2).1 := by
    rcases handler_events env (tryBody env).2.2 with h | h <;> rw [h] <;> decide
  rw [hevents]
  refine ⟨?_, ?_, ?_⟩
  · simp [List.count_append, List.count_eq_zero.mpr htl, List.count_eq_zero.mpr hhl]
  · simp [List.count_append, List.count_eq_zero.mpr htc, List.count_eq_zero.mpr hhc]
  · exact ⟨[Event.launch, Event.newPage] ++ (tryBody env).1
      ++ (handler env (tryBody env).2.2).1, by simp⟩

theorem C3_close_after_page_created_witness :
    (run noVideoEnv).events.count Event.launch = 1 ∧
    (run noVideoEnv).events.count Event.close = 1 ∧
    ∃ pre, (run noVideoEnv).events = pre ++ [Event.close] :=
  C3_close_after_page_created noVideoEnv rfl rfl

/-- C4: under the modelled library contract for the title assertion, the
step succeeds exactly when the observed title equals "ChromeCam Studio";
for any other observed title the step raises an AssertionError-class
condition and the run (with a working error screenshot) writes
verification/error.png. -/
theorem C4_title_exact_match (env : Env) (observed : String)
    (hl : env.launchRes = .ok) (hp : env.newPageRes = .ok)
    (hg : env.gotoRes = .ok)
    (ht : env.titleRes = toHaveTitleOutcome "ChromeCam Studio" observed)
    (he : env.errShotRes = .ok) :
    (env.titleRes = .ok ↔ observed = "ChromeCam Studio") ∧
    (observed ≠ "ChromeCam Studio" →
      env.titleRes = .raises ⟨.exceptionClass, "AssertionError"⟩ ∧
      "verification/error.png" ∈ (run env).written) := by
  constructor
  · rw [ht]
    unfold toHaveTitleOutcome
    split <;> simp_all
  · intro hne
    have ht2 : env.titleRes = .raises ⟨.exceptionClass, "AssertionError"⟩ := by
      rw [ht]; simp [toHaveTitleOutcome, hne]
    have hf : (tryBody env).2.2 = some ⟨.exceptionClass, "AssertionError"⟩ := by
      simp [tryBody, hg, ht2]
    have hw := tryBody_fail_writes env _ hf
    refine ⟨ht2, ?_⟩
    simp [run, hl, hp, hf, hw, handler, he]

theorem C4_title_exact_match_witness :
    (otherTitleEnv.titleRes = .ok ↔ "Other App" = "ChromeCam Studio") ∧
    ("Other App" ≠ "ChromeCam Studio" →
      otherTitleEnv.titleRes = .raises ⟨.exceptionClass, "AssertionError"⟩ ∧
      "verification/error.png" ∈ (run otherTitleEnv).written) :=
  C4_title_exact_match otherTitleEnv "Other App" rfl rfl rfl rfl rfl

/-- C5: the selector-wait call is made with the selector "video" and a
bound of exactly 10000 ms; under the modelled library contract it succeeds
exactly when a matching element appears within the bound, and when no
element ever appears it raises a TimeoutError-class condition and the run
(with a working error screenshot) writes verification/error.png. -/
theorem C5_selector_wait (env : Env) (appearsAt : Option Nat)
    (hl : env.launchRes = .ok) (hp : env.newPageRes = .ok)
    (hg : env.gotoRes = .ok) (ht : env.titleRes = .ok)
    (hsel : env.selectorRes = waitForSelectorOutcome 10000 appearsAt)
    (he : env.errShotRes = .ok) :
    (env.selectorRes = .ok ↔ ∃ t, appearsAt = some t ∧ t ≤ 10000) ∧
    Event.waitForSelector "video" 10000 ∈ (run env).events ∧
    (appearsAt = none →
      env.selectorRes = .raises ⟨.exceptionClass, "TimeoutError"⟩ ∧
      "verification/error.png" ∈ (run env).written) := by
  refine ⟨?_, ?_, ?_⟩
  · rw [hsel]
    rcases appearsAt with _ | t
    · simp [waitForSelectorOutcome]
    · simp only [waitForSelectorOutcome]
      split <;> simp_all
  · have hmem : selectorEvent ∈ (tryBody env).1 := by
      cases hs2 : env.selectorRes <;> cases hd2 : env.delayRes <;>
        cases hr2 : env.runShotRes <;> simp [tryBody, hg, ht, hs2, hd2, hr2]
    have : selectorEvent ∈ (run env).events := by
      simp only [run, hl, hp]
      simp [hmem]
    simpa [selectorEvent] using this
  · intro hnone
    subst hnone
    have hs2 : env.selectorRes = .raises ⟨.exceptionClass, "TimeoutError"⟩ := by
      rw [hsel]; rfl
    have hf : (tryBody env).2.2 = some ⟨.exceptionClass, "TimeoutError"⟩ := by
      simp [tryBody, hg, ht, hs2]
    have hw := tryBody_fail_writes env _ hf
    refine ⟨hs2, ?_⟩
    simp [run, hl, hp, hf, hw, handler, he]

theorem C5_selector_wait_witness :
    (noVideoEnv.selectorRes = .ok ↔ ∃ t, (none : Option Nat) = some t ∧ t ≤ 10000) ∧
    Event.waitForSelector "video" 10000 ∈ (run noVideoEnv).events ∧
    ((none : Option Nat) = none →
      noVideoEnv.selectorRes = .raises ⟨.exceptionClass, "TimeoutError"⟩ ∧
      "verification/error.png" ∈ (run noVideoEnv).written) :=
  C5_selector_wait noVideoEnv none rfl rfl rfl rfl rfl rfl

/-- C6: once the video element has appeared (the selector wait succeeded),
the sixth automation call of the run is the unconditional fixed wait of
exactly 3000 ms, and no screenshot call occurs among the first six calls:
the delay always falls after the selector wait and before any screenshot. -/
theorem C6_fixed_delay_before_screenshot (env : Env)
    (hl : env.launchRes = .ok) (hp : env.newPageRes = .ok)
    (hg : env.gotoRes = .ok) (ht : env.titleRes = .ok)
    (hs : env.selectorRes = .ok) :
    (run env).events.take 6 =
      [Event.launch, Event.newPage, gotoEvent, titleEvent, selectorEvent,
       Event.waitForTimeout 3000] ∧
    ∀ p b, Event.screenshot p b ∉ (run env).events.take 6 := by
  have htake : (run env).events.take 6 =
      [Event.launch, Event.newPage, gotoEvent, titleEvent, selectorEvent,
       Event.waitForTimeout 3000] := by
    cases hd2 : env.delayRes with
    | ok =>
      cases hr2 : env.runShotRes with
      | ok =>
        simp [run, tryBody, handler, hl, hp, hg, ht, hs, hd2, hr2, delayEvent]
      | raises e =>
        obtain ⟨ecls, enm⟩ := e
        cases ecls <;> cases her : env.errShotRes <;>
          simp [run, tryBody, handler, hl, hp, hg, ht, hs, hd2, hr2, her,
            delayEvent]
    | raises e =>
      obtain ⟨ecls, enm⟩ := e
      cases ecls <;> cases her : env.errShotRes <;>
        simp [run, tryBody, handler, hl, hp, hg, ht, hs, hd2, her,
          delayEvent]
  refine ⟨htake, ?_⟩
  intro p b hmem
  rw [htake] at hmem
  simp [gotoEvent, titleEvent, selectorEvent] at hmem

theorem C6_fixed_delay_before_screenshot_witness :
    (run allOkEnv).events.take 6 =
      [Event.launch, Event.newPage, gotoEvent, titleEvent, selectorEvent,
       Event.waitForTimeout 3000] ∧
    ∀ p b, Event.screenshot p b ∉ (run allOkEnv).events.take 6 :=
  C6_fixed_delay_before_screenshot allOkEnv rfl rfl rfl rfl rfl

/-- C7 as stated is false: on a fully successful run the screenshot call
for verification/running.png does not request full-page capture; the call
made carries the library default of a viewport-only capture. -/
theorem C7_counterexample :
    Event.screenshot "verification/running.png" true ∉ (run allOkEnv).events ∧
    Event.screenshot "verification/running.png" false ∈ (run allOkEnv).events ∧
    (run allOkEnv).written = ["verification/running.png"] := by
  refine ⟨?_, ?_, ?_⟩ <;> decide

/-- C7 amended: on the success path the screenshot persisted to
verification/running.png is captured with the library default, a
viewport-only capture, and no full-page screenshot call is ever made. -/
theorem C7_viewport_screenshot (env : Env)
    (hl : env.launchRes = .ok) (hp : env.newPageRes = .ok)
    (hg : env.gotoRes = .ok) (ht : env.titleRes = .ok)
    (hs : env.selectorRes = .ok) (hd : env.delayRes = .ok)
    (hr : env.runShotRes = .ok) :
    Event.screenshot "verification/running.png" false ∈ (run env).events ∧
    (∀ b, Event.screenshot "verification/running.png" b ∈ (run env).events →
      b = false) ∧
    (run env).written = ["verification/running.png"] := by
  have hev : (run env).events = [Event.launch, Event.newPage, gotoEvent,
      titleEvent, selectorEvent, delayEvent, runShotEvent, Event.close] := by
    simp [run, tryBody, handler, hl, hp, hg, ht, hs, hd, hr]
  have hw : (run env).written = ["verification/running.png"] := by
    simp [run, tryBody, handler, hl, hp, hg, ht, hs, hd, hr]
  rw [hev, hw]
  refine ⟨by decide, ?_, rfl⟩
  decide

theorem C7_viewport_screenshot_witness :
    Event.screenshot "verification/running.png" false ∈ (run allOkEnv).events ∧
    (∀ b, Event.screenshot "verification/running.png" b ∈ (run allOkEnv).events →
      b = false) ∧
    (run allOkEnv).written = ["verification/running.png"] :=
  C7_viewport_screenshot allOkEnv rfl rfl rfl rfl rfl rfl rfl

/-- C8 as stated is false: when the browser launch raises, the run writes
zero image files, neither verification/running.png nor
verification/error.png. -/
theorem C8_counterexample :
    (run launchFailEnv).written = [] ∧
    "verification/running.png" ∉ (run launchFailEnv).written ∧
    "verification/error.png" ∉ (run launchFailEnv).written := by
  refine ⟨rfl, ?_, ?_⟩ <;> decide

/-- C8 amended: in every run in which launch and page creation succeed,
any failure raised in the try block derives from Exception, and the error
screenshot succeeds when attempted, the run writes exactly one of the two
image files, never zero and never both; when launch or page creation fails,
zero files are written. -/
theorem C8_exactly_one_file (env : Env)
    (hl : env.launchRes = .ok) (hp : env.newPageRes = .ok)
    (hcaught : ∀ e, (tryBody env).2.2 = some e → e.cls = .exceptionClass)
    (he : env.errShotRes = .ok) :
    (run env).written = ["verification/running.png"] ∨
      (run env).written = ["verification/error.png"] := by
  cases hf : (tryBody env).2.2 with
  | none =>
    left
    have hw := tryBody_ok_writes env hf
    simp [run, hl, hp, hf, hw, handler]
  | some e =>
    right
    have hc := hcaught e hf
    have hw := tryBody_fail_writes env e hf
    obtain ⟨ecls, enm⟩ := e
    cases hc
    simp [run, hl, hp, hf, hw, handler, he]

theorem C8_exactly_one_file_witness :
    (run noVideoEnv).written = ["verification/running.png"] ∨
      (run noVideoEnv).written = ["verification/error.png"] :=
  C8_exactly_one_file noVideoEnv rfl rfl
    (by
      intro e h
      have h2 : some (⟨.exceptionClass, "TimeoutError"⟩ : Exc) = some e := h
      cases h2
      rfl)
    rfl

/-- The except clause makes no verification-step call. -/
theorem handler_events_filter (env : Env) (p : Option Exc) :
    ((handler env p).1).filter isVerificationStep = [] := by
  rcases handler_events env p with h | h <;> rw [h]
  · rfl
  · decide

/-- All five canonical steps satisfy the verification-step predicate. -/
theorem canonical_all_ver :
    ∀ ev ∈ canonicalSteps, isVerificationStep ev = true := by decide

/-- C9: in every run, the verification-step calls made are an initial
segment of the fixed sequence navigate, assert title, wait for the video
selector, fixed render-loop wait, success screenshot: each step runs at
most once and no later step ever runs before an earlier one. -/
theorem C9_steps_in_order (env : Env) :
    ∃ n, n ≤ 5 ∧
      (run env).events.filter isVerificationStep = canonicalSteps.take n := by
  cases hl : env.launchRes with
  | raises e => exact ⟨0, by norm_num, by simp [run, hl, isVerificationStep]⟩
  | ok =>
    cases hp : env.newPageRes with
    | raises e => exact ⟨0, by norm_num, by simp [run, hl, hp, isVerificationStep]⟩
    | ok =>
      obtain ⟨n, hn, hty⟩ := tryBody_events_take env
      refine ⟨n, hn, ?_⟩
      have hev : (run env).events = [Event.launch, Event.newPage]
          ++ (tryBody env).1 ++ (handler env (tryBody env).2.2).1
          ++ [Event.close] := by
        simp [run, hl, hp]
      have hfil : ((tryBody env).1).filter isVerificationStep = (tryBody env).1 :=
        List.filter_eq_self.mpr
          (fun ev hmem => canonical_all_ver ev (tryBody_events_sub env ev hmem))
      have h1 : ([Event.launch, Event.newPage]).filter isVerificationStep = [] := by
        decide
      have h4 : ([Event.close]).filter isVerificationStep = [] := by decide
      rw [hev, List.filter_append, List.filter_append, List.filter_append,
        h1, hfil, handler_events_filter, h4]
      simp [hty]

/-- C10: a failure in the try block deriving only from BaseException, such
as KeyboardInterrupt, is not matched by the except Exception handler: no
error screenshot is attempted, no error file is written, the exception
propagates to the caller, and yet the close call still runs via the finally
clause. -/
theorem C10_base_exception_propagates (env : Env) (e : Exc)
    (hl : env.launchRes = .ok) (hp : env.newPageRes = .ok)
    (hf : (tryBody env).2.2 = some e) (hb : e.cls = .baseOnly)
    (hcl : env.closeRes = .ok) :
    (run env).result = .raised e ∧
    errShotEvent ∉ (run env).events ∧
    "verification/error.png" ∉ (run env).written ∧
    Event.close ∈ (run env).events := by
  have hw := tryBody_fail_writes env e hf
  have hne : errShotEvent ∉ (tryBody env).1 := by
    intro hmem
    have := tryBody_events_sub env errShotEvent hmem
    revert this
    decide
  obtain ⟨ecls, enm⟩ := e
  cases hb
  have hh : handler env (some ⟨.baseOnly, enm⟩) = ([], [], some ⟨.baseOnly, enm⟩) :=
    rfl
  have hev : (run env).events = [Event.launch, Event.newPage]
      ++ (tryBody env).1 ++ [Event.close] := by
    simp [run, hl, hp, hf, hh]
  have hwr : (run env).written = [] := by
    simp [run, hl, hp, hf, hh, hw]
  refine ⟨?_, ?_, ?_, ?_⟩
  · simp [run, hl, hp, hf, hh, afterClose, hcl, toResult]
  · rw [hev]
    intro hmem
    rcases List.mem_append.mp hmem with h1 | h2
    · rcases List.mem_append.mp h1 with h3 | h4
      · exact absurd h3 (by decide)
      · exact hne h4
    · exact absurd h2 (by decide)
  · rw [hwr]
    decide
  · rw [hev]
    simp

theorem C10_base_exception_propagates_witness :
    (run interruptEnv).result = .raised ⟨.baseOnly, "KeyboardInterrupt"⟩ ∧
    errShotEvent ∉ (run interruptEnv).events ∧
    "verification/error.png" ∉ (run interruptEnv).written ∧
    Event.close ∈ (run interruptEnv).events :=
  C10_base_exception_propagates interruptEnv ⟨.baseOnly, "KeyboardInterrupt"⟩
    rfl rfl rfl rfl rfl

end VerifyRenderer
